import Mathlib

/-!
Verification of the remote file I/O protocol client in
`spyder/plugins/remoteclient/api/rest/plugin.py`
(`SpyderRemoteFileIOAPI` / `SpyderRemoteFileServicesAPI`).

The Python code is shallowly embedded: Python `str` payloads are `List Char`,
Python `bytes` are `List Nat` (each element a byte value, `< 256`),
JSON objects are a record of optional fields, exceptions are `Except`.
The standard-library `base64.b64encode` / `base64.b64decode` pair is embedded
as `b64encode` / `b64decode` on the canonical (strict, padded) alphabet.
-/

/-! ### The base64 codec (stdlib `base64.b64encode` / `base64.b64decode`) -/

/-- Character of the standard base64 alphabet at index `n` (for `n < 64`). -/
def b64Char (n : Nat) : Char :=
  if n < 26 then Char.ofNat (65 + n)
  else if n < 52 then Char.ofNat (71 + n)
  else if n < 62 then Char.ofNat (n - 4)
  else if n = 62 then '+'
  else '/'

/-- Index of a character in the standard base64 alphabet, `none` if absent. -/
def b64Index (c : Char) : Option Nat :=
  if 65 ≤ c.toNat ∧ c.toNat ≤ 90 then some (c.toNat - 65)
  else if 97 ≤ c.toNat ∧ c.toNat ≤ 122 then some (c.toNat - 71)
  else if 48 ≤ c.toNat ∧ c.toNat ≤ 57 then some (c.toNat + 4)
  else if c = '+' then some 62
  else if c = '/' then some 63
  else none

/-- `base64.b64encode`: bytes to base64 text, 3 input bytes per 4 output
characters, `'='`-padded. -/
def b64encode : List Nat → List Char
  | [] => []
  | [a] => [b64Char (a / 4), b64Char (a % 4 * 16), '=', '=']
  | [a, b] => [b64Char (a / 4), b64Char (a % 4 * 16 + b / 16), b64Char (b % 16 * 4), '=']
  | a :: b :: c :: rest =>
      b64Char (a / 4) :: b64Char (a % 4 * 16 + b / 16) ::
      b64Char (b % 16 * 4 + c / 64) :: b64Char (c % 64) :: b64encode rest

/-- `base64.b64decode` on canonical padded input: base64 text back to bytes,
`none` where the stdlib raises `binascii.Error`. -/
def b64decode : List Char → Option (List Nat)
  | [] => some []
  | w :: x :: y :: z :: rest =>
      (b64Index w).bind fun iw =>
      (b64Index x).bind fun ix =>
      if y = '=' ∧ z = '=' ∧ rest = [] then some [iw * 4 + ix / 16]
      else
        (b64Index y).bind fun iy =>
        if z = '=' ∧ rest = [] then some [iw * 4 + ix / 16, ix % 16 * 16 + iy / 4]
        else
          (b64Index z).bind fun iz =>
          (b64decode rest).map fun tail =>
            (iw * 4 + ix / 16) :: (ix % 16 * 16 + iy / 4) :: (iy % 4 * 64 + iz) :: tail
  | _ => none

theorem b64Index_b64Char : ∀ n : Nat, n < 64 → b64Index (b64Char n) = some n := by
  decide

theorem b64Char_ne_pad : ∀ n : Nat, n < 64 → b64Char n ≠ '=' := by
  decide

theorem b64_roundtrip : ∀ l : List Nat, (∀ b ∈ l, b < 256) →
    b64decode (b64encode l) = some l
  | [], _ => rfl
  | [a], h => by
      have ha : a < 256 := h a (by simp)
      have h1 : a / 4 < 64 := by omega
      have h2 : a % 4 * 16 < 64 := by omega
      simp only [b64encode, b64decode, b64Index_b64Char _ h1, b64Index_b64Char _ h2,
        Option.some_bind]
      simp only [and_self, if_true, reduceIte]
      congr 2
      omega
  | [a, b], h => by
      have ha : a < 256 := h a (by simp)
      have hb : b < 256 := h b (by simp)
      have h1 : a / 4 < 64 := by omega
      have h2 : a % 4 * 16 + b / 16 < 64 := by omega
      have h3 : b % 16 * 4 < 64 := by omega
      simp only [b64encode, b64decode, b64Index_b64Char _ h1, b64Index_b64Char _ h2,
        b64Index_b64Char _ h3, Option.some_bind]
      rw [if_neg (by simp [b64Char_ne_pad _ h3])]
      simp only [and_self, if_true, reduceIte]
      congr 3
      · omega
      · omega
  | a :: b :: c :: rest, h => by
      have ha : a < 256 := h a (by simp)
      have hb : b < 256 := h b (by simp)
      have hc : c < 256 := h c (by simp)
      have h1 : a / 4 < 64 := by omega
      have h2 : a % 4 * 16 + b / 16 < 64 := by omega
      have h3 : b % 16 * 4 + c / 64 < 64 := by omega
      have h4 : c % 64 < 64 := by omega
      have ih : b64decode (b64encode rest) = some rest :=
        b64_roundtrip rest (fun x hx => h x (by simp [hx]))
      show b64decode (b64Char (a / 4) :: b64Char (a % 4 * 16 + b / 16) ::
        b64Char (b % 16 * 4 + c / 64) :: b64Char (c % 64) :: b64encode rest) =
        some (a :: b :: c :: rest)
      simp only [b64decode, b64Index_b64Char _ h1, b64Index_b64Char _ h2,
        b64Index_b64Char _ h3, b64Index_b64Char _ h4, Option.some_bind]
      rw [if_neg (by simp [b64Char_ne_pad _ h3])]
      rw [if_neg (by simp [b64Char_ne_pad _ h4])]
      simp only [ih, Option.map_some']
      congr 4 <;> omega

/-! ### Text codec (Python `str.encode(encoding)` / `bytes.decode(encoding)`)

The handle's declared text encoding is an external Python codec; it is
embedded as an abstract pair of partial functions producing bytes. -/

/-- A Python text codec: `enc` is `str.encode(e)` (`none` where Python raises
`UnicodeEncodeError`), `dec` is `bytes.decode(e)` (`none` where Python raises
`UnicodeDecodeError`). `enc_lt` records that encoded output is bytes. -/
structure TextCodec where
  enc : List Char → Option (List Nat)
  dec : List Nat → Option (List Char)
  enc_lt : ∀ s bs, enc s = some bs → ∀ b ∈ bs, b < 256

/-- The latin-1 codec, used as a concrete instance of `TextCodec`. -/
def latin1 : TextCodec where
  enc s := if ∀ c ∈ s, c.toNat < 256 then some (s.map Char.toNat) else none
  dec bs := if ∀ b ∈ bs, b < 256 then some (bs.map Char.ofNat) else none
  enc_lt s bs h b hb := by
    dsimp only at h
    by_cases hc : ∀ c ∈ s, c.toNat < 256
    · rw [if_pos hc] at h
      cases h
      obtain ⟨c, hcs, rfl⟩ := List.mem_map.mp hb
      exact hc c hcs
    · rw [if_neg hc] at h
      cases h

/-! ### Data model: payload values, JSON messages, errors -/

/-- A Python value as it appears in file-I/O payloads: a `str`, a `bytes`, or
a server-native value needing no transport encoding (numbers etc.), or a JSON
list as carried in a response `data` field. -/
inductive Value where
  | vstr : List Char → Value
  | vbytes : List Nat → Value
  | vnum : Int → Value
  | vlist : List Value → Value

/-- A decoded JSON response object. Each field is `none` when the key is
absent from the object (or JSON `null`). -/
structure Message where
  status : Option Int
  errno : Option Int
  strerror : Option String
  filename : Option String
  type : Option String
  message : Option String
  tracebacks : Option (List String)
  data : Option Value

/-- The empty JSON object `{}` (as produced by the `except JSONDecodeError`
fallback in `_raise_for_status`). -/
def Message.empty : Message :=
  ⟨none, none, none, none, none, none, none, none⟩

/-- The two error classes of `plugin.py`: `RemoteOSError` (carrying
errno/strerror/filename plus url and tracebacks inherited from
`RemoteFileServicesError`) and a plain `RemoteFileServicesError`. -/
inductive SpyderError where
  | osError (errno : Int) (strerror : String) (filename : String)
      (url : String) (tracebacks : List String)
  | serviceError (type : String) (message : String)
      (url : String) (tracebacks : List String)
deriving DecidableEq

/-- The `tracebacks` attribute common to both error classes. -/
def SpyderError.tracebacks : SpyderError → List String
  | .osError _ _ _ _ tb => tb
  | .serviceError _ _ _ tb => tb

/-- Exceptions the embedded client code can raise. -/
inductive PyError where
  | remote : SpyderError → PyError
  | keyError : PyError
  | jsonDecodeError : PyError
  | binasciiError : PyError
  | unicodeError : PyError
  | notImplementedError : String → PyError
  | clientResponseError : Int → PyError
deriving DecidableEq

/-- `RemoteOSError.from_json(data, url)`: builds the error from the payload's
`errno` / `strerror` / `filename` keys (a missing key is a `KeyError`); the
constructor passes an empty tracebacks list, ignoring any `tracebacks` key. -/
def RemoteOSError.fromJson (data : Message) (url : String) : Except PyError SpyderError :=
  match data.errno, data.strerror, data.filename with
  | some e, some s, some f => .ok (.osError e s f url [])
  | _, _, _ => .error .keyError

/-- `http.HTTPStatus.LOCKED`. -/
def HTTPStatus.LOCKED : Int := 423
/-- `http.HTTPStatus.EXPECTATION_FAILED`. -/
def HTTPStatus.EXPECTATION_FAILED : Int := 417
/-- `http.HTTPStatus.INTERNAL_SERVER_ERROR`. -/
def HTTPStatus.INTERNAL_SERVER_ERROR : Int := 500

/-! ### `SpyderRemoteFileIOAPI._decode_data` / `_encode_data` -/

/-- `SpyderRemoteFileIOAPI._decode_data(data)`: non-`str` values pass through;
a `str` is base64-decoded, and in non-binary mode (no `'b'` in the file mode)
the decoded bytes are further decoded with the declared text encoding. -/
def decodeData (mode : List Char) (codec : TextCodec) : Value → Except PyError Value
  | .vstr s =>
      if 'b' ∈ mode then
        match b64decode s with
        | some bs => .ok (.vbytes bs)
        | none => .error .binasciiError
      else
        match b64decode s with
        | some bs =>
            match codec.dec bs with
            | some t => .ok (.vstr t)
            | none => .error .unicodeError
        | none => .error .binasciiError
  | v => .ok v

/-- `SpyderRemoteFileIOAPI._encode_data(data)`: `bytes` are base64-encoded to
a `str`; a `str` is first encoded with the declared text encoding, then
base64-encoded; any other value passes through unchanged. -/
def encodeData (codec : TextCodec) : Value → Except PyError Value
  | .vbytes b => .ok (.vstr (b64encode b))
  | .vstr s =>
      match codec.enc s with
      | some bs => .ok (.vstr (b64encode bs))
      | none => .error .unicodeError
  | v => .ok v

/-! ### Session handshake (`connect` / `_check_connection`) -/

/-- A frame received on the socket: either a `WSMsgType.CLOSE` frame (with
its close code `data` and its `extra` payload, `none` when `json.loads`
would fail on it) or any other frame type. -/
inductive WSMsg where
  | close (code : Int) (extra : Option Message)
  | other

/-- `SpyderRemoteFileIOAPI._check_connection()`: receive one frame; a CLOSE
frame with close code 1002 carries a JSON diagnostic payload whose `status`
selects between `RemoteOSError` (LOCKED / EXPECTATION_FAILED) and a generic
`RemoteFileServicesError` with defaulted fields; a CLOSE frame with any other
code raises the generic "Failed to open file" error; every non-CLOSE frame is
a successful handshake. `recv` is the outcome of `self._websocket.receive()`
(`Except.error` when the receive itself raises, e.g. a timeout). -/
def checkConnection (recv : Except PyError WSMsg) (url : String) : Except PyError Unit :=
  match recv with
  | .error e => .error e
  | .ok .other => .ok ()
  | .ok (.close code extra) =>
      if code = 1002 then
        match extra with
        | none => .error .jsonDecodeError
        | some data =>
            match data.status with
            | none => .error .keyError
            | some st =>
                if st = HTTPStatus.LOCKED ∨ st = HTTPStatus.EXPECTATION_FAILED then
                  match RemoteOSError.fromJson data url with
                  | .ok e => .error (.remote e)
                  | .error pe => .error pe
                else
                  .error (.remote (.serviceError (data.type.getD "UnknownError")
                    (data.message.getD "Unknown error") url (data.tracebacks.getD [])))
      else
        .error (.remote (.serviceError "UnknownError" "Failed to open file" url []))

/-- The mutable state of a `SpyderRemoteFileIOAPI` handle: its constructor
arguments plus the `_websocket` reference (`none` before a connection is
established, and after teardown). -/
structure FileHandle where
  name : String
  mode : List Char
  encoding : TextCodec
  atomic : Bool
  lock : Bool
  websocket : Option Nat

/-- The outcome of one `connect()` call: the handle's state afterwards, the
call's result, and how many transport connections + handshakes it performed. -/
structure ConnectOutcome where
  handle : FileHandle
  result : Except PyError Unit
  handshakes : Nat

/-- `SpyderRemoteFileIOAPI.connect()`: a no-op when `_websocket` is already
set; otherwise connect the socket (`conn` is the new connection, `recv` the
first frame it will deliver), run `_check_connection`, and on any exception
from it clear `_websocket` back to `None` and re-raise. -/
def connect (recv : Except PyError WSMsg) (conn : Nat) (url : String)
    (h : FileHandle) : ConnectOutcome :=
  match h.websocket with
  | some _ => ⟨h, .ok (), 0⟩
  | none =>
      match checkConnection recv url with
      | .ok () => ⟨{ h with websocket := some conn }, .ok (), 1⟩
      | .error e => ⟨{ h with websocket := none }, .error e, 1⟩

/-! ### Response decoding (`_get_response`) -/

/-- The list comprehension `[self._decode_data(d) for d in data]`: decode
elements left to right, propagating the first exception. -/
def decodeList (mode : List Char) (codec : TextCodec) : List Value → Except PyError (List Value)
  | [] => .ok []
  | v :: vs =>
      match decodeData mode codec v with
      | .ok d =>
          match decodeList mode codec vs with
          | .ok ds => .ok (d :: ds)
          | .error e => .error e
      | .error e => .error e

/-- `SpyderRemoteFileIOAPI._get_response()` applied to the received JSON
message: status > 400 raises (`RemoteOSError` from the message when the
status is EXPECTATION_FAILED, the generic error with defaulted fields
otherwise); otherwise the `data` field is extracted — absent gives no value,
a list is element-wise `_decode_data`-decoded, anything else is decoded as a
single value. -/
def getResponse (mode : List Char) (codec : TextCodec) (url : String)
    (m : Message) : Except PyError (Option Value) :=
  match m.status with
  | none => .error .keyError
  | some st =>
      if st > 400 then
        if st = HTTPStatus.EXPECTATION_FAILED then
          match RemoteOSError.fromJson m url with
          | .ok e => .error (.remote e)
          | .error pe => .error pe
        else
          .error (.remote (.serviceError (m.type.getD "UnknownError")
            (m.message.getD "Unknown error") url (m.tracebacks.getD [])))
      else
        match m.data with
        | none => .ok none
        | some (.vlist l) =>
            match decodeList mode codec l with
            | .ok ds => .ok (some (.vlist ds))
            | .error e => .error e
        | some v =>
            match decodeData mode codec v with
            | .ok d => .ok (some d)
            | .error e => .error e

/-! ### Metadata operations (`SpyderRemoteFileServicesAPI`) -/

/-- An HTTP response as seen by the metadata client: its status code, its
body parsed as JSON (`none` when parsing raises `JSONDecodeError`), and its
URL. -/
structure HttpResponse where
  status : Int
  jsonBody : Option Message
  url : String

/-- `SpyderRemoteFileServicesAPI._raise_for_status(response)`: statuses other
than INTERNAL_SERVER_ERROR and EXPECTATION_FAILED go through aiohttp's
`ClientResponse.raise_for_status` (which raises `ClientResponseError` for any
status ≥ 400 and returns otherwise); for those two, the body is parsed
(falling back to `{}` on `JSONDecodeError`) and EXPECTATION_FAILED raises
`RemoteOSError.from_json` while INTERNAL_SERVER_ERROR raises the generic
error with defaulted fields. (The `response.release()` bookkeeping has no
effect on the raised value and is not modelled.) -/
def raiseForStatus (resp : HttpResponse) : Except PyError Unit :=
  if resp.status ≠ HTTPStatus.INTERNAL_SERVER_ERROR ∧
      resp.status ≠ HTTPStatus.EXPECTATION_FAILED then
    if resp.status ≥ 400 then .error (.clientResponseError resp.status) else .ok ()
  else
    let data := resp.jsonBody.getD Message.empty
    if resp.status = HTTPStatus.EXPECTATION_FAILED then
      match RemoteOSError.fromJson data resp.url with
      | .ok e => .error (.remote e)
      | .error pe => .error pe
    else
      .error (.remote (.serviceError (data.type.getD "UnknownError")
        (data.message.getD "Unknown error") resp.url (data.tracebacks.getD [])))

/-- Modelled from the spec: the session wiring in
`JupyterPluginBaseAPI` (`rest/base.py`, not part of the sources) applies
`_raise_for_status` to the response of every metadata operation before the
operation's body returns `await response.json()` (spec 4.5: "Each operation
issues one outbound call, and on a response whose status is an internal-error
or expectation-failure code, applies the response-body error-or-default
extraction of 4.4 before raising; any other non-success status is surfaced as
a generic transport-level error unchanged"). Every metadata operation
(`ls`, `info`, `exists`, `is_file`, `is_dir`, `mkdir`, `rmdir`, `unlink`,
`copy`, `copy2`, `replace`, `touch`) has this same shape. -/
def metadataCall (resp : HttpResponse) : Except PyError Message :=
  match raiseForStatus resp with
  | .error e => .error e
  | .ok () =>
      match resp.jsonBody with
      | some m => .ok m
      | none => .error .jsonDecodeError

/-! ### Iteration (`__iter__`) and `readinto` -/

/-- Python truthiness of a `readline` result (`None`, empty `str`, empty
`bytes`, zero are falsy). -/
def pyTruthy : Option Value → Bool
  | none => false
  | some (.vstr s) => !s.isEmpty
  | some (.vbytes b) => !b.isEmpty
  | some (.vnum n) => n != 0
  | some (.vlist l) => !l.isEmpty

/-- `SpyderRemoteFileIOAPI.__iter__()`: `while response := await
self.readline(): yield response`. `rs` lists the values successive `readline`
calls return; the result is the yielded values paired with the number of
`readline` operations performed. -/
def iterLines : List (Option Value) → List (Option Value) × Nat
  | [] => ([], 0)
  | r :: rest =>
      if pyTruthy r then
        ((iterLines rest).1.cons r, (iterLines rest).2 + 1)
      else
        ([], 1)

/-- A request frame sent on the session socket (`_send_request`): the method
name of the JSON `{"method": ..., **args}` object. -/
structure Request where
  method : String

/-- `SpyderRemoteFileIOAPI.readinto(b)`: raises `NotImplementedError`
unconditionally, before any request is sent; the second component lists the
requests put on the wire (none). -/
def readinto (h : FileHandle) (b : List Nat) : Except PyError Value × List Request :=
  (.error (.notImplementedError "readinto() is not supported by the remote file API"), [])

/-! ### Helper lemmas shared by the codec claims -/

theorem encodeData_decodeData_bytes (mode : List Char) (codec : TextCodec)
    (b : List Nat) (hmode : 'b' ∈ mode) (hb : ∀ x ∈ b, x < 256) :
    (encodeData codec (.vbytes b)).bind (decodeData mode codec) = .ok (.vbytes b) := by
  show decodeData mode codec (.vstr (b64encode b)) = .ok (.vbytes b)
  simp only [decodeData, if_pos hmode, b64_roundtrip b hb]

theorem encodeData_decodeData_text (mode : List Char) (codec : TextCodec)
    (s : List Char) (bs : List Nat) (hmode : 'b' ∉ mode)
    (henc : codec.enc s = some bs) (hdec : codec.dec bs = some s) :
    (encodeData codec (.vstr s)).bind (decodeData mode codec) = .ok (.vstr s) := by
  simp only [encodeData, henc]
  show decodeData mode codec (.vstr (b64encode bs)) = .ok (.vstr s)
  simp only [decodeData, if_neg hmode, b64_roundtrip bs (codec.enc_lt s bs henc), hdec]

theorem b64encode_inj (b1 b2 : List Nat) (h1 : ∀ x ∈ b1, x < 256)
    (h2 : ∀ x ∈ b2, x < 256) (h : b64encode b1 = b64encode b2) : b1 = b2 := by
  have hr := b64_roundtrip b1 h1
  rw [h, b64_roundtrip b2 h2] at hr
  exact (Option.some_inj.mp hr).symm

/-! ### Claim theorems -/

/-- Claim C5: encode followed by decode is the identity in each mode: for
every byte string `b`, decoding the encoding of `b` with a mode containing
the binary flag returns exactly `b`; for every text string `s` representable
in the handle's declared encoding, decoding the encoding of `s` with a
non-binary mode returns exactly `s`. -/
theorem claim_C5_codec_roundtrip (mode : List Char) (codec : TextCodec) :
    (∀ b : List Nat, 'b' ∈ mode → (∀ x ∈ b, x < 256) →
      (encodeData codec (.vbytes b)).bind (decodeData mode codec) = .ok (.vbytes b))
    ∧ (∀ s bs, 'b' ∉ mode → codec.enc s = some bs → codec.dec bs = some s →
      (encodeData codec (.vstr s)).bind (decodeData mode codec) = .ok (.vstr s)) :=
  ⟨fun b hm hb => encodeData_decodeData_bytes mode codec b hm hb,
   fun s bs hm he hd => encodeData_decodeData_text mode codec s bs hm he hd⟩

theorem claim_C5_witness :
    (encodeData latin1 (.vbytes [0, 255])).bind (decodeData ['r', 'b'] latin1) =
      .ok (.vbytes [0, 255])
    ∧ (encodeData latin1 (.vstr ['h', 'i'])).bind (decodeData ['r'] latin1) =
      .ok (.vstr ['h', 'i']) :=
  ⟨(claim_C5_codec_roundtrip ['r', 'b'] latin1).1 [0, 255] (by decide) (by decide),
   (claim_C5_codec_roundtrip ['r'] latin1).2 ['h', 'i'] [104, 105] (by decide)
     (by decide) (by decide)⟩

/-- Claim C6 (as stated) is false: for a fixed mode and declared encoding,
`_encode_data` is not injective over all application payloads — the bytes
payload `b"a"` and the text payload `"a"` encode to the same wire string
`"YQ=="`, so decode cannot be a two-sided inverse on the joint domain. -/
theorem claim_C6_counterexample :
    encodeData latin1 (.vbytes [97]) = encodeData latin1 (.vstr ['a'])
    ∧ Value.vbytes [97] ≠ Value.vstr ['a'] := by
  refine ⟨rfl, fun h => ?_⟩
  cases h

/-- Claim C6 (amended): for a fixed mode and declared encoding the codec is
pure and deterministic, and is a bijection on each payload kind separately
rather than on the joint domain: encode is injective on byte payloads and on
text payloads representable in the encoding, decode is a left inverse of
encode on the payload kind selected by the mode, and server-native values
pass through both directions unchanged; across kinds encode is not
injective. -/
theorem claim_C6_amended (mode : List Char) (codec : TextCodec) :
    (∀ b1 b2 : List Nat, (∀ x ∈ b1, x < 256) → (∀ x ∈ b2, x < 256) →
      encodeData codec (.vbytes b1) = encodeData codec (.vbytes b2) → b1 = b2)
    ∧ (∀ s1 s2 bs1 bs2, codec.enc s1 = some bs1 → codec.dec bs1 = some s1 →
        codec.enc s2 = some bs2 → codec.dec bs2 = some s2 →
        encodeData codec (.vstr s1) = encodeData codec (.vstr s2) → s1 = s2)
    ∧ (∀ b : List Nat, 'b' ∈ mode → (∀ x ∈ b, x < 256) →
        (encodeData codec (.vbytes b)).bind (decodeData mode codec) = .ok (.vbytes b))
    ∧ (∀ s bs, 'b' ∉ mode → codec.enc s = some bs → codec.dec bs = some s →
        (encodeData codec (.vstr s)).bind (decodeData mode codec) = .ok (.vstr s))
    ∧ (∀ n : Int, (encodeData codec (.vnum n)).bind (decodeData mode codec) =
        .ok (.vnum n)) := by
  refine ⟨?_, ?_, ?_, ?_, ?_⟩
  · intro b1 b2 h1 h2 h
    simp only [encodeData, Except.ok.injEq, Value.vstr.injEq] at h
    exact b64encode_inj b1 b2 h1 h2 h
  · intro s1 s2 bs1 bs2 he1 hd1 he2 hd2 h
    simp only [encodeData, he1, he2, Except.ok.injEq, Value.vstr.injEq] at h
    have hbs : bs1 = bs2 :=
      b64encode_inj bs1 bs2 (codec.enc_lt s1 bs1 he1) (codec.enc_lt s2 bs2 he2) h
    rw [hbs, hd2] at hd1
    exact (Option.some_inj.mp hd1).symm
  · exact fun b hm hb => encodeData_decodeData_bytes mode codec b hm hb
  · exact fun s bs hm he hd => encodeData_decodeData_text mode codec s bs hm he hd
  · intro n
    rfl

theorem claim_C6_witness :
    ((∀ x ∈ [5], x < 256) → (∀ x ∈ [7], x < 256) →
      encodeData latin1 (.vbytes [5]) = encodeData latin1 (.vbytes [7]) → [5] = [7])
    ∧ (encodeData latin1 (.vbytes [1, 2])).bind (decodeData ['w', 'b'] latin1) =
      .ok (.vbytes [1, 2]) :=
  ⟨fun h1 h2 h => (claim_C6_amended ['w', 'b'] latin1).1 [5] [7] h1 h2 h,
   (claim_C6_amended ['w', 'b'] latin1).2.2.1 [1, 2] (by decide) (by decide)⟩

/-- Claim C7: `connect` is idempotent — with `_websocket` already set, a
second `connect` call returns immediately, performs no transport connection
and no handshake, and leaves the handle unchanged. -/
theorem claim_C7_connect_idempotent (recv : Except PyError WSMsg) (conn : Nat)
    (url : String) (h : FileHandle) (c : Nat) (hws : h.websocket = some c) :
    connect recv conn url h = ⟨h, .ok (), 0⟩ := by
  unfold connect
  rw [hws]

theorem claim_C7_witness :
    connect (.ok .other) 5 "u" ⟨"f", ['r'], latin1, false, false, some 3⟩ =
      ⟨⟨"f", ['r'], latin1, false, false, some 3⟩, .ok (), 0⟩ :=
  claim_C7_connect_idempotent (.ok .other) 5 "u"
    ⟨"f", ['r'], latin1, false, false, some 3⟩ 3 rfl

/-- Claim C4: when the handshake validation (`_check_connection`) raises,
`connect` clears the handle's `_websocket` reference back to `None` and
propagates the exception, so a subsequent `connect` call performs a fresh
handshake (rather than returning as a no-op). -/
theorem claim_C4_connect_clears (recv : Except PyError WSMsg) (conn : Nat)
    (url : String) (h : FileHandle) (e : PyError) (hws : h.websocket = none)
    (hfail : checkConnection recv url = .error e) :
    (connect recv conn url h).handle.websocket = none
    ∧ (connect recv conn url h).result = .error e
    ∧ (connect recv conn url (connect recv conn url h).handle).handshakes = 1 := by
  unfold connect
  rw [hws, hfail]
  exact ⟨rfl, rfl, rfl⟩

theorem claim_C4_witness :
    (connect (.ok (.close 1000 none)) 4 "u"
        ⟨"f", ['r'], latin1, false, false, none⟩).handle.websocket = none
    ∧ (connect (.ok (.close 1000 none)) 4 "u"
        ⟨"f", ['r'], latin1, false, false, none⟩).result =
      .error (.remote (.serviceError "UnknownError" "Failed to open file" "u" []))
    ∧ (connect (.ok (.close 1000 none)) 4 "u"
        (connect (.ok (.close 1000 none)) 4 "u"
          ⟨"f", ['r'], latin1, false, false, none⟩).handle).handshakes = 1 :=
  claim_C4_connect_clears (.ok (.close 1000 none)) 4 "u"
    ⟨"f", ['r'], latin1, false, false, none⟩
    (.remote (.serviceError "UnknownError" "Failed to open file" "u" [])) rfl rfl

/-- Claim C9: `readinto` fails immediately with `NotImplementedError` for
every handle state and every argument, and never sends a request on the
wire. -/
theorem claim_C9_readinto (h : FileHandle) (b : List Nat) :
    readinto h b =
      (.error (.notImplementedError "readinto() is not supported by the remote file API"),
        []) :=
  rfl

/-- Claim C8: iterating the handle (`__iter__`) yields exactly the values the
successive `readline` calls return up to (and excluding) the first falsy
(empty) result, performing one `readline` per yielded value plus the final
one that ends the iteration. -/
theorem claim_C8_iter (rs : List (Option Value))
    (hterm : ∃ r ∈ rs, pyTruthy r = false) :
    (iterLines rs).1 = rs.takeWhile pyTruthy
    ∧ (iterLines rs).2 = (rs.takeWhile pyTruthy).length + 1 := by
  induction rs with
  | nil => simp at hterm
  | cons r rest ih =>
      by_cases hr : pyTruthy r
      · have hterm2 : ∃ x ∈ rest, pyTruthy x = false := by
          obtain ⟨x, hx, hxf⟩ := hterm
          rcases List.mem_cons.mp hx with hxr | hxrest
          · rw [hxr] at hxf
            rw [hxf] at hr
            cases hr
          · exact ⟨x, hxrest, hxf⟩
        obtain ⟨ih1, ih2⟩ := ih hterm2
        simp only [iterLines, hr, if_true, List.takeWhile_cons, List.length_cons]
        exact ⟨by rw [ih1], by rw [ih2]⟩
      · rw [Bool.not_eq_true] at hr
        simp [iterLines, List.takeWhile_cons, hr]

theorem claim_C8_witness :
    (iterLines [some (.vstr ['a']), some (.vstr ['b']), some (.vstr [])]).1 =
      ([some (.vstr ['a']), some (.vstr ['b']), some (.vstr [])].takeWhile pyTruthy)
    ∧ (iterLines [some (.vstr ['a']), some (.vstr ['b']), some (.vstr [])]).2 =
      ([some (.vstr ['a']), some (.vstr ['b']), some (.vstr [])].takeWhile pyTruthy).length
        + 1 :=
  claim_C8_iter [some (.vstr ['a']), some (.vstr ['b']), some (.vstr [])]
    ⟨some (.vstr []), List.Mem.tail _ (List.Mem.tail _ (List.Mem.head _)), rfl⟩

/-- Claim C2: `_get_response` classifies a decoded JSON message by its
`status`: status > 400 equal to EXPECTATION_FAILED raises `RemoteOSError`
from the message's errno/strerror/filename plus the origin URL; any other
status > 400 raises the generic error from type/message/tracebacks with
defaults "UnknownError" / "Unknown error" / `[]`; status ≤ 400 succeeds,
returning no value when `data` is absent, the element-wise `_decode_data` of
a list `data`, and the single `_decode_data` of any other `data`. -/
theorem claim_C2_getResponse (mode : List Char) (codec : TextCodec)
    (url : String) (m : Message) (st : Int) (hst : m.status = some st) :
    (st > 400 → st = HTTPStatus.EXPECTATION_FAILED →
      ∀ e s f, m.errno = some e → m.strerror = some s → m.filename = some f →
      getResponse mode codec url m = .error (.remote (.osError e s f url [])))
    ∧ (st > 400 → st ≠ HTTPStatus.EXPECTATION_FAILED →
      getResponse mode codec url m = .error (.remote (.serviceError
        (m.type.getD "UnknownError") (m.message.getD "Unknown error") url
        (m.tracebacks.getD []))))
    ∧ (st ≤ 400 → m.data = none → getResponse mode codec url m = .ok none)
    ∧ (st ≤ 400 → ∀ l ds, m.data = some (.vlist l) →
      decodeList mode codec l = .ok ds →
      getResponse mode codec url m = .ok (some (.vlist ds)))
    ∧ (st ≤ 400 → ∀ v d, m.data = some v → (∀ l, v ≠ .vlist l) →
      decodeData mode codec v = .ok d →
      getResponse mode codec url m = .ok (some d)) := by
  refine ⟨?_, ?_, ?_, ?_, ?_⟩
  · intro hgt heq e s f he hs hf
    subst heq
    simp [getResponse, RemoteOSError.fromJson, HTTPStatus.EXPECTATION_FAILED,
      hst, he, hs, hf]
  · intro hgt hne
    simp [getResponse, hst, hgt, hne]
  · intro hle hdata
    have hngt : ¬(400 < st) := not_lt.mpr hle
    simp [getResponse, hst, hngt, hdata]
  · intro hle l ds hdata hmap
    have hngt : ¬(400 < st) := not_lt.mpr hle
    simp [getResponse, hst, hngt, hdata, hmap]
  · intro hle v d hdata hnl hdec
    have hngt : ¬(400 < st) := not_lt.mpr hle
    cases v with
    | vstr s => simp [getResponse, hst, hngt, hdata, hdec]
    | vbytes b => simp [getResponse, hst, hngt, hdata, hdec]
    | vnum n => simp [getResponse, hst, hngt, hdata, hdec]
    | vlist l => exact absurd rfl (hnl l)

theorem claim_C2_witness :
    getResponse ['r'] latin1 "u"
        ⟨some 417, some 2, some "No such file", some "/x", none, none,
          some ["tb"], none⟩ =
      .error (.remote (.osError 2 "No such file" "/x" "u" []))
    ∧ getResponse ['r'] latin1 "u"
        ⟨some 200, none, none, none, none, none, none, none⟩ = .ok none :=
  ⟨(claim_C2_getResponse ['r'] latin1 "u"
      ⟨some 417, some 2, some "No such file", some "/x", none, none,
        some ["tb"], none⟩ 417 rfl).1 (by decide) rfl 2 "No such file" "/x"
      rfl rfl rfl,
   (claim_C2_getResponse ['r'] latin1 "u"
      ⟨some 200, none, none, none, none, none, none, none⟩ 200
      rfl).2.2.1 (by decide) rfl⟩

/-- Claim C3: `_check_connection` on the first frame: a CLOSE frame with the
diagnostic close code and a decodable payload raises `RemoteOSError` from
errno/strerror/filename plus the URL when the payload status is LOCKED or
EXPECTATION_FAILED, and otherwise the generic error with payload fields
defaulting to "UnknownError" / "Unknown error" / `[]`; a CLOSE frame without
a usable diagnostic payload raises the generic "UnknownError" / "Failed to
open file" error; any other frame type completes the handshake
successfully. -/
theorem claim_C3_handshake (url : String) :
    (∀ m st e s f, m.status = some st →
      (st = HTTPStatus.LOCKED ∨ st = HTTPStatus.EXPECTATION_FAILED) →
      m.errno = some e → m.strerror = some s → m.filename = some f →
      checkConnection (.ok (.close 1002 (some m))) url =
        .error (.remote (.osError e s f url [])))
    ∧ (∀ m st, m.status = some st →
      ¬(st = HTTPStatus.LOCKED ∨ st = HTTPStatus.EXPECTATION_FAILED) →
      checkConnection (.ok (.close 1002 (some m))) url =
        .error (.remote (.serviceError (m.type.getD "UnknownError")
          (m.message.getD "Unknown error") url (m.tracebacks.getD []))))
    ∧ (∀ code extra, code ≠ 1002 →
      checkConnection (.ok (.close code extra)) url =
        .error (.remote (.serviceError "UnknownError" "Failed to open file" url [])))
    ∧ checkConnection (.ok .other) url = .ok () := by
  refine ⟨?_, ?_, ?_, rfl⟩
  · intro m st e s f hst hlock he hs hf
    simp [checkConnection, RemoteOSError.fromJson, hst, he, hs, hf, hlock]
  · intro m st hst hlock
    simp [checkConnection, hst, hlock]
  · intro code extra hcode
    simp [checkConnection, hcode]

theorem claim_C3_witness :
    checkConnection
        (.ok (.close 1002 (some ⟨some 423, some 13, some "Locked", some "/y",
          none, none, none, none⟩))) "u" =
      .error (.remote (.osError 13 "Locked" "/y" "u" []))
    ∧ checkConnection (.ok (.close 1006 none)) "u" =
      .error (.remote (.serviceError "UnknownError" "Failed to open file" "u" [])) :=
  ⟨(claim_C3_handshake "u").1
      ⟨some 423, some 13, some "Locked", some "/y", none, none, none, none⟩
      423 13 "Locked" "/y" rfl (Or.inl rfl) rfl rfl rfl,
   (claim_C3_handshake "u").2.2.1 1006 none (by decide)⟩

/-! ### Helper lemmas for the tracebacks invariant -/

theorem decodeData_no_remote (mode : List Char) (codec : TextCodec) (v : Value)
    (r : SpyderError) : decodeData mode codec v ≠ .error (.remote r) := by
  intro h
  cases v with
  | vstr s =>
      simp only [decodeData] at h
      by_cases hm : 'b' ∈ mode
      · rw [if_pos hm] at h
        cases hb : b64decode s <;> simp only [hb] at h <;> simp_all
      · rw [if_neg hm] at h
        cases hb : b64decode s with
        | none => simp only [hb] at h; simp_all
        | some bs =>
            simp only [hb] at h
            cases hd : codec.dec bs <;> simp only [hd] at h <;> simp_all
  | vbytes b => simp [decodeData] at h
  | vnum n => simp [decodeData] at h
  | vlist l => simp [decodeData] at h

theorem decodeList_no_remote (mode : List Char) (codec : TextCodec)
    (r : SpyderError) : ∀ l : List Value, decodeList mode codec l ≠ .error (.remote r) := by
  intro l
  induction l with
  | nil => simp [decodeList]
  | cons v vs ih =>
      intro h
      simp only [decodeList] at h
      cases hv : decodeData mode codec v with
      | error e =>
          simp only [hv] at h
          cases h
          exact decodeData_no_remote mode codec v r hv
      | ok d =>
          simp only [hv] at h
          cases hvs : decodeList mode codec vs with
          | error e =>
              simp only [hvs] at h
              cases h
              exact ih hvs
          | ok ds => simp only [hvs] at h; cases h

theorem fromJson_raise_tracebacks {α : Type} (d : Message) (url : String)
    (e : Int) (s f u : String) (tb : List String)
    (h : (match RemoteOSError.fromJson d url with
          | .ok r => (.error (.remote r) : Except PyError α)
          | .error pe => .error pe) = .error (.remote (.osError e s f u tb))) :
    tb = [] := by
  unfold RemoteOSError.fromJson at h
  split at h
  · rename_i r heq
    simp only [Except.error.injEq, PyError.remote.injEq] at h
    subst h
    split at heq <;> simp_all
  · rename_i pe heq
    simp only [Except.error.injEq] at h
    subst h
    split at heq <;> simp_all

/-- Claim C10: every `RemoteOSError` the client constructs — from a handshake
diagnostic (`_check_connection`), a session response (`_get_response`), or a
metadata response body (`_raise_for_status`) — carries an empty tracebacks
list, regardless of any `tracebacks` field in the server payload; only
generic `RemoteFileServicesError`s carry server-supplied tracebacks. -/
theorem claim_C10_osError_tracebacks (frame : WSMsg) (url : String)
    (mode : List Char) (codec : TextCodec) (m : Message) (resp : HttpResponse)
    (e : Int) (s f u : String) (tb : List String) :
    (checkConnection (.ok frame) url = .error (.remote (.osError e s f u tb)) → tb = [])
    ∧ (getResponse mode codec url m = .error (.remote (.osError e s f u tb)) → tb = [])
    ∧ (raiseForStatus resp = .error (.remote (.osError e s f u tb)) → tb = []) := by
  refine ⟨?_, ?_, ?_⟩
  · intro h
    cases frame with
    | other => simp [checkConnection] at h
    | close code extra =>
        simp only [checkConnection] at h
        by_cases hc : code = 1002
        · rw [if_pos hc] at h
          cases extra with
          | none => simp at h
          | some d =>
              cases hst : d.status with
              | none => simp only [hst] at h; simp_all
              | some st =>
                  simp only [hst] at h
                  by_cases hl : st = HTTPStatus.LOCKED ∨ st = HTTPStatus.EXPECTATION_FAILED
                  · rw [if_pos hl] at h
                    exact fromJson_raise_tracebacks d url e s f u tb h
                  · rw [if_neg hl] at h
                    simp at h
        · rw [if_neg hc] at h
          simp at h
  · intro h
    simp only [getResponse] at h
    cases hst : m.status with
    | none => simp only [hst] at h; simp_all
    | some st =>
        simp only [hst] at h
        by_cases hgt : st > 400
        · rw [if_pos hgt] at h
          by_cases he : st = HTTPStatus.EXPECTATION_FAILED
          · rw [if_pos he] at h
            exact fromJson_raise_tracebacks m url e s f u tb h
          · rw [if_neg he] at h
            simp at h
        · rw [if_neg hgt] at h
          cases hd : m.data with
          | none => simp only [hd] at h; simp_all
          | some v =>
              simp only [hd] at h
              cases v with
              | vlist l =>
                  cases hdl : decodeList mode codec l with
                  | ok ds => simp only [hdl] at h; simp_all
                  | error e2 =>
                      simp only [hdl] at h
                      cases h
                      exact absurd hdl (decodeList_no_remote mode codec _ l)
              | vstr s2 =>
                  dsimp only at h
                  cases hdd : decodeData mode codec (.vstr s2) with
                  | ok dv => simp only [hdd] at h; simp_all
                  | error e2 =>
                      simp only [hdd] at h
                      cases h
                      exact absurd hdd (decodeData_no_remote mode codec _ _)
              | vbytes b2 =>
                  dsimp only at h
                  cases hdd : decodeData mode codec (.vbytes b2) with
                  | ok dv => simp only [hdd] at h; simp_all
                  | error e2 =>
                      simp only [hdd] at h
                      cases h
                      exact absurd hdd (decodeData_no_remote mode codec _ _)
              | vnum n2 =>
                  dsimp only at h
                  cases hdd : decodeData mode codec (.vnum n2) with
                  | ok dv => simp only [hdd] at h; simp_all
                  | error e2 =>
                      simp only [hdd] at h
                      cases h
                      exact absurd hdd (decodeData_no_remote mode codec _ _)
  · intro h
    simp only [raiseForStatus] at h
    by_cases hns : resp.status ≠ HTTPStatus.INTERNAL_SERVER_ERROR ∧
        resp.status ≠ HTTPStatus.EXPECTATION_FAILED
    · rw [if_pos hns] at h
      by_cases hge : resp.status ≥ 400
      · rw [if_pos hge] at h
        simp at h
      · rw [if_neg hge] at h
        simp at h
    · rw [if_neg hns] at h
      by_cases he : resp.status = HTTPStatus.EXPECTATION_FAILED
      · rw [if_pos he] at h
        exact fromJson_raise_tracebacks _ _ e s f u tb h
      · rw [if_neg he] at h
        simp at h

theorem claim_C10_witness : ([] : List String) = [] :=
  (claim_C10_osError_tracebacks .other "u" ['r'] latin1
    ⟨some 200, none, none, none, none, none, none, none⟩
    ⟨417, some ⟨some 417, some 2, some "No such file", some "/x", none, none,
      some ["server traceback"], none⟩, "u"⟩
    2 "No such file" "/x" "u" []).2.2 rfl

/-- Claim C1 (amended): on an HTTP response with status 500 or 417, every
metadata operation raises an error built by the response-body error-or-default
extraction of `_raise_for_status` instead of returning — `RemoteOSError` from
the body's errno/strerror/filename for HTTP status 417, the generic
`RemoteFileServicesError` with defaulted type/message/tracebacks for HTTP
status 500. The branch is keyed on the HTTP status alone: a status-500
response whose body is an expectation-failure payload raises the generic
error, unlike the session path, which keys on the body's own status field. -/
theorem claim_C1_metadata_raise (resp : HttpResponse) :
    (resp.status = HTTPStatus.INTERNAL_SERVER_ERROR →
      metadataCall resp = .error (.remote (.serviceError
        ((resp.jsonBody.getD Message.empty).type.getD "UnknownError")
        ((resp.jsonBody.getD Message.empty).message.getD "Unknown error")
        resp.url ((resp.jsonBody.getD Message.empty).tracebacks.getD []))))
    ∧ (∀ m e s f, resp.status = HTTPStatus.EXPECTATION_FAILED →
      resp.jsonBody = some m → m.errno = some e → m.strerror = some s →
      m.filename = some f →
      metadataCall resp = .error (.remote (.osError e s f resp.url []))) := by
  constructor
  · intro h500
    simp [metadataCall, raiseForStatus, h500, HTTPStatus.INTERNAL_SERVER_ERROR,
      HTTPStatus.EXPECTATION_FAILED]
  · intro m e s f h417 hbody he hs hf
    simp [metadataCall, raiseForStatus, RemoteOSError.fromJson, h417, hbody,
      he, hs, hf, HTTPStatus.INTERNAL_SERVER_ERROR, HTTPStatus.EXPECTATION_FAILED]

theorem claim_C1_witness :
    metadataCall ⟨417, some ⟨some 417, some 2, some "No such file", some "/x",
        none, none, none, none⟩, "u"⟩ =
      .error (.remote (.osError 2 "No such file" "/x" "u" [])) :=
  (claim_C1_metadata_raise ⟨417, some ⟨some 417, some 2, some "No such file",
      some "/x", none, none, none, none⟩, "u"⟩).2
    ⟨some 417, some 2, some "No such file", some "/x", none, none, none, none⟩
    2 "No such file" "/x" rfl rfl rfl rfl rfl

/-- Claim C1 as frozen is false at this input: an HTTP response with status
500 whose body is the expectation-failure payload
`{"errno": 2, "strerror": "No such file", "filename": "/x", "status": 417}`
makes the metadata path raise the generic `RemoteFileServicesError` with
defaults, not the filesystem-style `RemoteOSError` with the body's errno that
the session path (`_get_response` on the same payload) raises. -/
theorem claim_C1_counterexample :
    metadataCall ⟨500, some ⟨some 417, some 2, some "No such file", some "/x",
        none, none, none, none⟩, "u"⟩ =
      .error (.remote (.serviceError "UnknownError" "Unknown error" "u" []))
    ∧ getResponse ['r'] latin1 "u"
        ⟨some 417, some 2, some "No such file", some "/x", none, none, none, none⟩ =
      .error (.remote (.osError 2 "No such file" "/x" "u" []))
    ∧ metadataCall ⟨500, some ⟨some 417, some 2, some "No such file", some "/x",
        none, none, none, none⟩, "u"⟩ ≠
      .error (.remote (.osError 2 "No such file" "/x" "u" [])) := by
  refine ⟨rfl, rfl, fun hcontra => ?_⟩
  rw [show metadataCall ⟨500, some ⟨some 417, some 2, some "No such file",
      some "/x", none, none, none, none⟩, "u"⟩ =
    .error (.remote (.serviceError "UnknownError" "Unknown error" "u" []))
    from rfl] at hcontra
  simp at hcontra
